import Mathlib

/-!
Shallow embedding of the wallet / top-up / order core of the
virtual-number-reseller backend (`src/railway_virtual_number_reseller.jsx`).

The database schema is taken from `src/models/migrations.sql` (tables
`users`, `services`, `topups`, `orders`); the operations embed the two
route handlers the claims are about:

  * `POST /api/topup/callback` (`src/routes/topup.js`)
  * `POST /api/orders/buy`     (`src/routes/orders.js`)

Monetary amounts (`NUMERIC` columns) are modelled as `Int`; the handlers
only add, subtract and compare them.  SQL `UPDATE ... WHERE id = x`
becomes a `List.map` that rewrites the matching rows; `SELECT ... WHERE
id = x` with `rows[0]` becomes `List.find?`.  An Express async handler
that throws (a failed axios call, or reading a field of `undefined`)
sends no success response and runs no further query; this is the
`crash` outcome.
-/

namespace VNR

/-- Row of the `users` table (`migrations.sql`); only the columns the
embedded handlers read or write. -/
structure UserRec where
  id : Nat
  wallet_balance : Int
deriving DecidableEq, Repr

/-- Row of the `services` table (`migrations.sql`). -/
structure Service where
  id : Nat
  code : String
  provider : String
  price : Int
  active : Bool
deriving DecidableEq, Repr

/-- Row of the `topups` table (`migrations.sql`).  The external
reference `topup_<id>` is carried as the parsed numeric id. -/
structure Topup where
  id : Nat
  user_id : Nat
  amount : Int
  status : String
deriving DecidableEq, Repr

/-- Row of the `orders` table (`migrations.sql`). -/
structure Order where
  id : Nat
  user_id : Nat
  service_id : Nat
  provider : String
  provider_order_id : Option String
  virtual_number : Option String
  sms_code : Option String
  status : String
deriving DecidableEq, Repr

/-- Modelled from the spec: the `LedgerEntry` audit row the spec's
WalletLedger appends on every balance mutation.  `migrations.sql`
creates no such table and no route handler writes one; the field
exists in `DB` so the spec's audit invariants can be stated against
the code. -/
structure LedgerEntry where
  id : Nat
  user_id : Nat
  delta : Int
  reason : String
  reference_id : Nat
deriving DecidableEq, Repr

/-- The database state: one list per table of `migrations.sql`, plus
the spec's (absent from the schema) ledger audit table. -/
structure DB where
  users : List UserRec
  services : List Service
  topups : List Topup
  orders : List Order
  ledger_entries : List LedgerEntry
deriving DecidableEq, Repr

/-- Payment confirmation event POSTed to `/api/topup/callback`.  The
handler destructures `{ billExternalReferenceNo, status, amount }`;
`ref` is the topup id parsed out of `billExternalReferenceNo =
"topup_<id>"`.  The gateway signature rides along in the body; the
handler never reads it. -/
structure Event where
  ref : Nat
  status : String
  amount : Int
  signature : String
deriving DecidableEq, Repr

/-- Outcome of an HTTP handler run: a response was sent (`ok`-style
2xx/4xx outcomes are distinguished per handler), or the async handler
threw and no success response was produced. -/
inductive Resp where
  | ok
  | crash
deriving DecidableEq, Repr

/-- `SELECT wallet_balance FROM users WHERE id=$1` with `rows[0]`. -/
def getBalance (db : DB) (uid : Nat) : Option Int :=
  (db.users.find? (fun u => u.id = uid)).map (fun u => u.wallet_balance)

/-- `UPDATE users SET wallet_balance = wallet_balance + $1 WHERE id=$2`. -/
def creditUsers (uid : Nat) (a : Int) (users : List UserRec) : List UserRec :=
  users.map (fun u => if u.id = uid then { u with wallet_balance := u.wallet_balance + a } else u)

/-- `UPDATE users SET wallet_balance = wallet_balance - $1 WHERE id=$2`. -/
def debitUsers (uid : Nat) (p : Int) (users : List UserRec) : List UserRec :=
  users.map (fun u => if u.id = uid then { u with wallet_balance := u.wallet_balance - p } else u)

/-- `UPDATE topups SET status='paid' WHERE id=$2`. -/
def markPaid (tid : Nat) (ts : List Topup) : List Topup :=
  ts.map (fun t => if t.id = tid then { t with status := "paid" } else t)

/-- The `POST /api/topup/callback` handler (`src/routes/topup.js`).
Source order: if `status === 'PAID'`, first `UPDATE topups SET
status='paid' WHERE id=topupId`, then `SELECT user_id, amount FROM
topups WHERE id=topupId`, then `UPDATE users SET wallet_balance =
wallet_balance + amount WHERE id=user_id`; finally `res.send('OK')`.
Reading `topup.rows[0].amount` when the select matched no row throws,
so the handler crashes after the (vacuous) topup update.  The event's
`amount` and `signature` fields are never consulted. -/
def topupCallback (ev : Event) (db : DB) : DB × Resp :=
  if ev.status = "PAID" then
    let db1 : DB := { db with topups := markPaid ev.ref db.topups }
    match db1.topups.find? (fun t => t.id = ev.ref) with
    | none => (db1, Resp.crash)
    | some t =>
      ({ db1 with users := creditUsers t.user_id t.amount db1.users }, Resp.ok)
  else
    (db, Resp.ok)

/-- Result of the provider wrapper call (`cyber.orderNumber` /
`grizzly.orderNumber`): the vendor's `{ order_id | id, number }`
payload, or a thrown network error. -/
inductive ProviderOutcome where
  | ok (order_id : String) (number : Option String)
  | err
deriving DecidableEq, Repr

/-- Response of the `POST /api/orders/buy` handler. -/
inductive BuyResult where
  | ok (order_id : Nat)
  | serviceNotFound
  | insufficient
  | crash
deriving DecidableEq, Repr

/-- The externally visible effects of the buy handler, in the order
the source performs them: service query, balance query, provider HTTP
call, order insert, balance decrement. -/
inductive Act where
  | svcQuery
  | balQuery
  | provCall
  | ordInsert
  | balDebit
deriving DecidableEq, Repr

/-- Fresh `SERIAL` order id. -/
def freshOrderId (os : List Order) : Nat :=
  (os.map Order.id).foldr max 0 + 1

/-- The `POST /api/orders/buy` handler (`src/routes/orders.js`).
Source order: `SELECT * FROM services WHERE id=$1` (400 if absent);
`SELECT wallet_balance FROM users WHERE id=$1` (reading
`u.rows[0].wallet_balance` throws if the user is absent); if
`balance < price` respond 402 `insufficient balance`; call the
provider wrapper (a throw aborts the handler); `INSERT INTO orders(...)
VALUES(..., 'waiting')`; `UPDATE users SET wallet_balance =
wallet_balance - price WHERE id=$2`.  Alongside the final state and
response, the list of performed effects is returned. -/
def buy (user_id service_id : Nat) (prov : ProviderOutcome) (db : DB) :
    DB × BuyResult × List Act :=
  match db.services.find? (fun s => s.id = service_id) with
  | none => (db, BuyResult.serviceNotFound, [Act.svcQuery])
  | some service =>
    match db.users.find? (fun u => u.id = user_id) with
    | none => (db, BuyResult.crash, [Act.svcQuery, Act.balQuery])
    | some u =>
      if u.wallet_balance < service.price then
        (db, BuyResult.insufficient, [Act.svcQuery, Act.balQuery])
      else
        match prov with
        | ProviderOutcome.err =>
          (db, BuyResult.crash, [Act.svcQuery, Act.balQuery, Act.provCall])
        | ProviderOutcome.ok oid num =>
          let o : Order :=
            { id := freshOrderId db.orders, user_id := user_id,
              service_id := service_id, provider := service.provider,
              provider_order_id := some oid, virtual_number := num,
              sms_code := none, status := "waiting" }
          let db1 : DB := { db with orders := db.orders ++ [o] }
          let db2 : DB := { db1 with users := debitUsers user_id service.price db1.users }
          (db2, BuyResult.ok o.id,
           [Act.svcQuery, Act.balQuery, Act.provCall, Act.ordInsert, Act.balDebit])

/-- Whether, in a trace of buy-handler effects, a balance debit occurs
before any provider call. -/
def debitBeforeProv : List Act → Bool
  | [] => false
  | Act.balDebit :: _ => true
  | Act.provCall :: _ => false
  | _ :: rest => debitBeforeProv rest

/-- A core operation: a payment-confirmation delivery to the webhook,
or a purchase attempt (with the provider's reply as input). -/
inductive Op where
  | confirm (ev : Event)
  | purchase (uid sid : Nat) (prov : ProviderOutcome)
deriving DecidableEq, Repr

/-- State transition of one core operation. -/
def runOp (op : Op) (db : DB) : DB :=
  match op with
  | Op.confirm ev => (topupCallback ev db).1
  | Op.purchase uid sid prov => (buy uid sid prov db).1

/-- State after a sequence of core operations. -/
def runOps (ops : List Op) (db : DB) : DB :=
  ops.foldl (fun d op => runOp op d) db

/-- Sum of a user's ledger-entry deltas (the spec's audit invariant
reads `balance == sum(LedgerEntry.delta for that user)`). -/
def ledgerSum (db : DB) (uid : Nat) : Int :=
  ((db.ledger_entries.filter (fun e => e.user_id = uid)).map LedgerEntry.delta).foldl (· + ·) 0

/-- Local progress of one of two racing buy attempts against the same
user and price: the attempt has not yet run its balance check, has
passed it, was rejected with 402, or has applied its balance
decrement. -/
inductive Phase where
  | ready
  | approved
  | rejected
  | completed
deriving DecidableEq, Repr

/-- Shared state of two racing buy attempts on the same user: the
`users` table plus each attempt's local phase. -/
structure RaceSt where
  users : List UserRec
  ph1 : Phase
  ph2 : Phase
deriving DecidableEq, Repr

/-- One atomic database step of the selected attempt (`true` selects
the first).  A `ready` attempt runs the buy handler's balance query
and comparison (`balance < price` rejects with 402); an `approved`
attempt runs the handler's closing `UPDATE users SET wallet_balance =
wallet_balance - price` (`debitUsers`).  The provider call and order
insert sit between those two queries in the source and do not touch
the `users` table. -/
def raceStep (uid : Nat) (price : Int) (which : Bool) (s : RaceSt) : RaceSt :=
  let stepOf : Phase → Phase × List UserRec := fun ph =>
    match ph with
    | Phase.ready =>
      match s.users.find? (fun u => u.id = uid) with
      | none => (Phase.rejected, s.users)
      | some u =>
        if u.wallet_balance < price then (Phase.rejected, s.users)
        else (Phase.approved, s.users)
    | Phase.approved => (Phase.completed, debitUsers uid price s.users)
    | ph => (ph, s.users)
  if which then
    let r := stepOf s.ph1
    { users := r.2, ph1 := r.1, ph2 := s.ph2 }
  else
    let r := stepOf s.ph2
    { users := r.2, ph1 := s.ph1, ph2 := r.1 }

/-- Interleaved execution of two racing buy attempts under a
schedule. -/
def runRace (uid : Nat) (price : Int) (sched : List Bool) (s : RaceSt) : RaceSt :=
  sched.foldl (fun t w => raceStep uid price w t) s

/-- Database sanity matching the schema and data model: `users.id` is
a primary key (no duplicate ids), balances are non-negative, and
stored top-up amounts are non-negative. -/
def WF (db : DB) : Prop :=
  (db.users.map UserRec.id).Nodup ∧
  (∀ u ∈ db.users, 0 ≤ u.wallet_balance) ∧
  (∀ t ∈ db.topups, 0 ≤ t.amount)

instance (db : DB) : Decidable (WF db) := by
  unfold WF; infer_instance

/-- Concrete state: one user (id 1) with balance 0 and one pending
top-up of 20 for that user. -/
def replayDb : DB :=
  { users := [{ id := 1, wallet_balance := 0 }],
    services := [],
    topups := [{ id := 1, user_id := 1, amount := 20, status := "pending" }],
    orders := [],
    ledger_entries := [] }

/-- A PAID confirmation for top-up 1. -/
def paidEv : Event :=
  { ref := 1, status := "PAID", amount := 20, signature := "gateway-sig" }

/-- Concrete state: one user (id 1) with balance 10 and one service
(id 1) priced 10. -/
def buyDb : DB :=
  { users := [{ id := 1, wallet_balance := 10 }],
    services := [{ id := 1, code := "instagram", provider := "CyberYozh", price := 10, active := true }],
    topups := [],
    orders := [],
    ledger_entries := [] }

/-- Concrete state: one user (id 1) with balance 3 and one service
(id 1) priced 10. -/
def poorDb : DB :=
  { users := [{ id := 1, wallet_balance := 3 }],
    services := [{ id := 1, code := "instagram", provider := "CyberYozh", price := 10, active := true }],
    topups := [],
    orders := [],
    ledger_entries := [] }

/-- Concrete well-formed state with a user, a priced service and a
pending top-up, for exercising operation sequences. -/
def coreDb : DB :=
  { users := [{ id := 1, wallet_balance := 5 }],
    services := [{ id := 1, code := "instagram", provider := "CyberYozh", price := 10, active := true }],
    topups := [{ id := 1, user_id := 1, amount := 20, status := "pending" }],
    orders := [],
    ledger_entries := [] }

/-! ## Helper lemmas -/

/-- `find?` commutes with a row-rewriting `map` whose rewrite
preserves the searched predicate. -/
theorem find?_map_pres {α : Type} {f : α → α} {p : α → Bool}
    (h : ∀ a, p (f a) = p a) (l : List α) :
    (l.map f).find? p = (l.find? p).map f := by
  rw [List.find?_map]
  have hpf : p ∘ f = p := funext h
  rw [hpf]

theorem find?_markPaid (tid x : Nat) (ts : List Topup) :
    (markPaid tid ts).find? (fun t => t.id = x) =
      (ts.find? (fun t => t.id = x)).map
        (fun t => if t.id = tid then { t with status := "paid" } else t) := by
  apply find?_map_pres
  intro t
  by_cases h : t.id = tid <;> simp [h]

theorem find?_creditUsers (uid x : Nat) (a : Int) (l : List UserRec) :
    (creditUsers uid a l).find? (fun u => u.id = x) =
      (l.find? (fun u => u.id = x)).map
        (fun u => if u.id = uid then { u with wallet_balance := u.wallet_balance + a } else u) := by
  apply find?_map_pres
  intro u
  by_cases h : u.id = uid <;> simp [h]

theorem find?_debitUsers (uid x : Nat) (p : Int) (l : List UserRec) :
    (debitUsers uid p l).find? (fun u => u.id = x) =
      (l.find? (fun u => u.id = x)).map
        (fun u => if u.id = uid then { u with wallet_balance := u.wallet_balance - p } else u) := by
  apply find?_map_pres
  intro u
  by_cases h : u.id = uid <;> simp [h]

/-- Shape of the callback when the event is `PAID` and the reference
resolves: the top-up row is marked `paid` and its stored amount is
credited to its owner, whatever the row's prior status. -/
theorem topupCallback_paid_found (ev : Event) (db : DB) (t : Topup)
    (hs : ev.status = "PAID")
    (ht : db.topups.find? (fun x => x.id = ev.ref) = some t) :
    topupCallback ev db =
      ({ db with topups := markPaid ev.ref db.topups,
                 users := creditUsers t.user_id t.amount db.users }, Resp.ok) := by
  have hpt : t.id = ev.ref := by
    have := List.find?_some ht
    simpa using this
  have hfind1 : (markPaid ev.ref db.topups).find? (fun x => x.id = ev.ref) =
      some { t with status := "paid" } := by
    rw [find?_markPaid, ht]
    simp [hpt]
  unfold topupCallback
  rw [if_pos hs]
  simp only [hfind1]

/-- Shape of the buy handler when the balance check fails: respond
402 and change nothing; the trace shows no provider call was made. -/
theorem buy_insufficient (db : DB) (uid sid : Nat) (prov : ProviderOutcome)
    (svc : Service) (u : UserRec)
    (hs : db.services.find? (fun s => s.id = sid) = some svc)
    (hu : db.users.find? (fun x => x.id = uid) = some u)
    (hlt : u.wallet_balance < svc.price) :
    buy uid sid prov db = (db, BuyResult.insufficient, [Act.svcQuery, Act.balQuery]) := by
  unfold buy
  simp only [hs, hu]
  rw [if_pos hlt]

/-- Shape of the buy handler when the provider call throws: the
handler aborts with no further query, leaving the state untouched. -/
theorem buy_provider_err (db : DB) (uid sid : Nat)
    (svc : Service) (u : UserRec)
    (hs : db.services.find? (fun s => s.id = sid) = some svc)
    (hu : db.users.find? (fun x => x.id = uid) = some u)
    (hge : ¬ u.wallet_balance < svc.price) :
    buy uid sid ProviderOutcome.err db =
      (db, BuyResult.crash, [Act.svcQuery, Act.balQuery, Act.provCall]) := by
  unfold buy
  simp only [hs, hu]
  rw [if_neg hge]

/-- Shape of the successful buy: order inserted `waiting`, then the
balance decremented. -/
theorem buy_success (db : DB) (uid sid : Nat) (oid : String) (num : Option String)
    (svc : Service) (u : UserRec)
    (hs : db.services.find? (fun s => s.id = sid) = some svc)
    (hu : db.users.find? (fun x => x.id = uid) = some u)
    (hge : ¬ u.wallet_balance < svc.price) :
    buy uid sid (ProviderOutcome.ok oid num) db =
      ({ db with
           orders := db.orders ++
             [{ id := freshOrderId db.orders, user_id := uid, service_id := sid,
                provider := svc.provider, provider_order_id := some oid,
                virtual_number := num, sms_code := none, status := "waiting" }],
           users := debitUsers uid svc.price db.users },
       BuyResult.ok (freshOrderId db.orders),
       [Act.svcQuery, Act.balQuery, Act.provCall, Act.ordInsert, Act.balDebit]) := by
  unfold buy
  simp only [hs, hu]
  rw [if_neg hge]

/-! ## C1 — webhook idempotence -/

/-- C1 (counterexample): delivering the same PAID confirmation twice
credits the wallet twice — the balance goes 0 → 20 → 40, so the
second delivery does apply a ledger effect, contradicting the claim
that replays credit exactly once. -/
theorem c1_counterexample :
    getBalance (topupCallback paidEv replayDb).1 1 = some 20 ∧
    getBalance (topupCallback paidEv (topupCallback paidEv replayDb).1).1 1 = some 40 := by
  decide

/-- C1 (amended): every delivery of a PAID confirmation whose
reference resolves to a stored top-up answers OK and credits the
stored amount to the owner's balance, regardless of the top-up's
current status — in particular a redelivery to a top-up already
marked `paid` credits the amount again. -/
theorem c1_every_paid_delivery_credits
    (ev : Event) (db : DB) (t : Topup) (u : UserRec)
    (hs : ev.status = "PAID")
    (ht : db.topups.find? (fun x => x.id = ev.ref) = some t)
    (hu : db.users.find? (fun x => x.id = t.user_id) = some u) :
    (topupCallback ev db).2 = Resp.ok ∧
    getBalance (topupCallback ev db).1 t.user_id =
      some (u.wallet_balance + t.amount) := by
  have hshape := topupCallback_paid_found ev db t hs ht
  rw [hshape]
  have huid : u.id = t.user_id := by
    have := List.find?_some hu
    simpa using this
  refine ⟨rfl, ?_⟩
  unfold getBalance
  rw [find?_creditUsers, hu]
  simp [huid]

/-- C1 amended-claim witness at a concrete input: one pending top-up
of 20 for a user with balance 0. -/
theorem c1_witness :
    (topupCallback paidEv replayDb).2 = Resp.ok ∧
    getBalance (topupCallback paidEv replayDb).1 1 = some (0 + 20) :=
  c1_every_paid_delivery_credits paidEv replayDb
    { id := 1, user_id := 1, amount := 20, status := "pending" }
    { id := 1, wallet_balance := 0 }
    rfl (by decide) (by decide)

/-! ## C7 — webhook signature verification -/

/-- C7: the callback handler performs no signature verification.  An
event whose signature is garbage is processed in full: the top-up is
marked `paid`, the wallet is credited, and the handler answers OK —
the claimed AuthenticationFailed rejection does not exist in the
code (the handler only carries the comment `verify callback signature
if available`). -/
theorem c7_bad_signature_still_processed :
    topupCallback { ref := 1, status := "PAID", amount := 20, signature := "invalid" } replayDb =
      ({ users := [{ id := 1, wallet_balance := 20 }],
         services := [],
         topups := [{ id := 1, user_id := 1, amount := 20, status := "paid" }],
         orders := [],
         ledger_entries := [] }, Resp.ok) := by
  decide

/-! ## C8 — unknown external reference -/

/-- C8 (counterexample): a confirmation whose reference matches no
top-up and whose status is not PAID is answered with success (`OK`,
HTTP 200) — it is not surfaced as an UnknownReference client error. -/
theorem c8_counterexample :
    topupCallback { ref := 99, status := "FAILED", amount := 5, signature := "s" } replayDb =
      (replayDb, Resp.ok) := by
  decide

/-- C8 (amended): an unknown reference creates no top-up and changes
no state, but there is no UnknownReference error: a PAID event
crashes the handler (reading a field of the empty select result)
after its vacuous topup update, and any non-PAID event is answered
with success. -/
theorem c8_unknown_ref_no_state_change
    (ev : Event) (db : DB)
    (h : db.topups.find? (fun t => t.id = ev.ref) = none) :
    topupCallback ev db =
      (db, if ev.status = "PAID" then Resp.crash else Resp.ok) := by
  by_cases hp : ev.status = "PAID"
  · have hmark : markPaid ev.ref db.topups = db.topups := by
      unfold markPaid
      have hnone := List.find?_eq_none.mp h
      rw [List.map_congr_left (g := id) ?_, List.map_id]
      intro t htmem
      have : ¬ (t.id = ev.ref) := by simpa using hnone t htmem
      simp [this]
    unfold topupCallback
    rw [if_pos hp, if_pos hp]
    simp only [hmark, h]
  · unfold topupCallback
    rw [if_neg hp, if_neg hp]

/-- C8 amended-claim witness at a concrete input: a PAID confirmation
for an unknown reference leaves the state unchanged and crashes. -/
theorem c8_witness :
    topupCallback { ref := 99, status := "PAID", amount := 5, signature := "s" } replayDb =
      (replayDb, Resp.crash) := by
  simpa using
    c8_unknown_ref_no_state_change
      { ref := 99, status := "PAID", amount := 5, signature := "s" } replayDb (by decide)

/-! ## C2 — reservation before the provider call -/

/-- C2 (counterexample): in a successful purchase the trace of
effects places the provider call strictly before the balance debit —
funds are not reserved by a debit before the provider call. -/
theorem c2_counterexample :
    (buy 1 1 (ProviderOutcome.ok "p1" (some "n")) buyDb).2.2 =
      [Act.svcQuery, Act.balQuery, Act.provCall, Act.ordInsert, Act.balDebit] ∧
    debitBeforeProv (buy 1 1 (ProviderOutcome.ok "p1" (some "n")) buyDb).2.2 = false ∧
    (buy 1 1 (ProviderOutcome.ok "p1" (some "n")) buyDb).2.1 = BuyResult.ok 1 := by
  decide

/-- C2 (amended): the handler checks — but does not debit — the
balance before the provider call; when the check fails the purchase
aborts with 402 before any provider call, leaving the state exactly
as it was (no order, balance unchanged). -/
theorem c2_insufficient_aborts_before_provider
    (db : DB) (uid sid : Nat) (prov : ProviderOutcome)
    (svc : Service) (u : UserRec)
    (hs : db.services.find? (fun s => s.id = sid) = some svc)
    (hu : db.users.find? (fun x => x.id = uid) = some u)
    (hlt : u.wallet_balance < svc.price) :
    buy uid sid prov db = (db, BuyResult.insufficient, [Act.svcQuery, Act.balQuery]) ∧
    Act.provCall ∉ (buy uid sid prov db).2.2 := by
  have h := buy_insufficient db uid sid prov svc u hs hu hlt
  refine ⟨h, ?_⟩
  rw [h]
  simp

/-- C2 amended-claim witness: balance 3, price 10. -/
theorem c2_witness :
    buy 1 1 (ProviderOutcome.ok "p1" (some "n")) poorDb =
      (poorDb, BuyResult.insufficient, [Act.svcQuery, Act.balQuery]) ∧
    Act.provCall ∉ (buy 1 1 (ProviderOutcome.ok "p1" (some "n")) poorDb).2.2 :=
  c2_insufficient_aborts_before_provider poorDb 1 1 (ProviderOutcome.ok "p1" (some "n"))
    { id := 1, code := "instagram", provider := "CyberYozh", price := 10, active := true }
    { id := 1, wallet_balance := 3 }
    (by decide) (by decide) (by decide)

/-! ## C3 — compensation after provider failure -/

/-- C3 (counterexample): with a sufficient balance and a failing
provider call the handler crashes before the debit and before the
order insert: the final state is the initial one, no compensating
credit runs, and no order — in particular none with status
`refunded` — is ever created. -/
theorem c3_counterexample :
    buy 1 1 ProviderOutcome.err buyDb =
      (buyDb, BuyResult.crash, [Act.svcQuery, Act.balQuery, Act.provCall]) ∧
    (buy 1 1 ProviderOutcome.err buyDb).1.orders = [] := by
  decide

/-- C3 (amended): the debit follows the provider call, so a provider
allocation failure occurs before any funds are reserved: the handler
aborts with the database exactly as before the attempt — balance
untouched (no compensating credit is needed or performed) and no
order created, so no order ever reaches `refunded`. -/
theorem c3_provider_failure_no_partial_state
    (db : DB) (uid sid : Nat) (svc : Service) (u : UserRec)
    (hs : db.services.find? (fun s => s.id = sid) = some svc)
    (hu : db.users.find? (fun x => x.id = uid) = some u)
    (hge : ¬ u.wallet_balance < svc.price) :
    buy uid sid ProviderOutcome.err db =
      (db, BuyResult.crash, [Act.svcQuery, Act.balQuery, Act.provCall]) ∧
    (buy uid sid ProviderOutcome.err db).1.orders = db.orders := by
  have h := buy_provider_err db uid sid svc u hs hu hge
  exact ⟨h, by rw [h]⟩

/-- C3 amended-claim witness: balance 10, price 10, provider throws. -/
theorem c3_witness :
    buy 1 1 ProviderOutcome.err buyDb =
      (buyDb, BuyResult.crash, [Act.svcQuery, Act.balQuery, Act.provCall]) ∧
    (buy 1 1 ProviderOutcome.err buyDb).1.orders = buyDb.orders :=
  c3_provider_failure_no_partial_state buyDb 1 1
    { id := 1, code := "instagram", provider := "CyberYozh", price := 10, active := true }
    { id := 1, wallet_balance := 10 }
    (by decide) (by decide) (by decide)

/-! ## C9 — strict-inequality balance check -/

/-- C9: the purchase is refused with `insufficient balance` exactly
when `balance < price` (strict); with `balance = price` the purchase
succeeds, the balance reaches exactly zero, and — for a positive
price — any second identical attempt is then refused. -/
theorem c9_debit_strict_threshold
    (db : DB) (uid sid : Nat) (oid : String) (num : Option String)
    (svc : Service) (u : UserRec)
    (hs : db.services.find? (fun s => s.id = sid) = some svc)
    (hu : db.users.find? (fun x => x.id = uid) = some u) :
    ((buy uid sid (ProviderOutcome.ok oid num) db).2.1 = BuyResult.insufficient ↔
      u.wallet_balance < svc.price) ∧
    (u.wallet_balance = svc.price → 0 < svc.price →
      (buy uid sid (ProviderOutcome.ok oid num) db).2.1 =
        BuyResult.ok (freshOrderId db.orders) ∧
      getBalance (buy uid sid (ProviderOutcome.ok oid num) db).1 uid = some 0 ∧
      ∀ prov2,
        (buy uid sid prov2 (buy uid sid (ProviderOutcome.ok oid num) db).1).2.1 =
          BuyResult.insufficient) := by
  have huid : u.id = uid := by
    have := List.find?_some hu
    simpa using this
  by_cases hlt : u.wallet_balance < svc.price
  · have h1 := buy_insufficient db uid sid (ProviderOutcome.ok oid num) svc u hs hu hlt
    rw [h1]
    constructor
    · simpa using hlt
    · intro hEq _
      rw [hEq] at hlt
      exact absurd hlt (lt_irrefl _)
  · have h1 := buy_success db uid sid oid num svc u hs hu hlt
    have hu2 : (debitUsers uid svc.price db.users).find? (fun x => x.id = uid) =
        some { u with wallet_balance := u.wallet_balance - svc.price } := by
      rw [find?_debitUsers, hu]
      simp [huid]
    have key : ∀ db' : DB, db'.services = db.services →
        db'.users = debitUsers uid svc.price db.users →
        u.wallet_balance = svc.price → 0 < svc.price →
        ∀ prov2, (buy uid sid prov2 db').2.1 = BuyResult.insufficient := by
      intro db' hsv husr hEq hpos prov2
      have hs' : db'.services.find? (fun s => s.id = sid) = some svc := by
        rw [hsv]; exact hs
      have hu' : db'.users.find? (fun x => x.id = uid) =
          some { u with wallet_balance := u.wallet_balance - svc.price } := by
        rw [husr]; exact hu2
      have hlt2 : ({ u with wallet_balance := u.wallet_balance - svc.price } : UserRec).wallet_balance <
          svc.price := by
        show u.wallet_balance - svc.price < svc.price
        omega
      rw [buy_insufficient db' uid sid prov2 svc _ hs' hu' hlt2]
    rw [h1]
    constructor
    · constructor
      · intro hcontra
        exact absurd hcontra (by simp)
      · intro h
        exact absurd h hlt
    · intro hEq hpos
      refine ⟨rfl, ?_, ?_⟩
      · unfold getBalance
        simp only
        rw [hu2]
        simp [hEq]
      · intro prov2
        exact key _ (by rfl) (by rfl) hEq hpos prov2

/-- C9 witness: balance 10, price 10 — first purchase succeeds
reaching balance 0, the identical second attempt is refused. -/
theorem c9_witness :
    (buy 1 1 (ProviderOutcome.ok "p1" (some "n")) buyDb).2.1 = BuyResult.ok 1 ∧
    getBalance (buy 1 1 (ProviderOutcome.ok "p1" (some "n")) buyDb).1 1 = some 0 ∧
    (buy 1 1 (ProviderOutcome.ok "p1" (some "n"))
        (buy 1 1 (ProviderOutcome.ok "p1" (some "n")) buyDb).1).2.1 =
      BuyResult.insufficient := by
  have h := c9_debit_strict_threshold buyDb 1 1 "p1" (some "n")
    { id := 1, code := "instagram", provider := "CyberYozh", price := 10, active := true }
    { id := 1, wallet_balance := 10 }
    (by decide) (by decide)
  obtain ⟨-, h2⟩ := h
  obtain ⟨ha, hb, hc⟩ := h2 rfl (by decide)
  exact ⟨ha, hb, hc (ProviderOutcome.ok "p1" (some "n"))⟩

/-! ## C4 — non-negative balances (sequential execution) -/

/-- Shape of the callback when the event is not PAID: nothing
happens. -/
theorem topupCallback_not_paid (ev : Event) (db : DB)
    (hs : ¬ ev.status = "PAID") :
    topupCallback ev db = (db, Resp.ok) := by
  unfold topupCallback
  rw [if_neg hs]

/-- Shape of the callback for a PAID event with an unknown reference:
the topup update matches nothing and the handler crashes reading the
empty select result. -/
theorem topupCallback_paid_not_found (ev : Event) (db : DB)
    (hs : ev.status = "PAID")
    (ht : db.topups.find? (fun x => x.id = ev.ref) = none) :
    topupCallback ev db =
      ({ db with topups := markPaid ev.ref db.topups }, Resp.crash) := by
  have hfind1 : (markPaid ev.ref db.topups).find? (fun x => x.id = ev.ref) = none := by
    rw [find?_markPaid, ht]
    rfl
  unfold topupCallback
  rw [if_pos hs]
  simp only [hfind1]

/-- Shape of the buy handler when the service row is absent. -/
theorem buy_no_service (db : DB) (uid sid : Nat) (prov : ProviderOutcome)
    (hs : db.services.find? (fun s => s.id = sid) = none) :
    buy uid sid prov db = (db, BuyResult.serviceNotFound, [Act.svcQuery]) := by
  unfold buy
  simp only [hs]

/-- Shape of the buy handler when the user row is absent: reading the
balance of the empty select result throws. -/
theorem buy_no_user (db : DB) (uid sid : Nat) (prov : ProviderOutcome) (svc : Service)
    (hs : db.services.find? (fun s => s.id = sid) = some svc)
    (hu : db.users.find? (fun x => x.id = uid) = none) :
    buy uid sid prov db = (db, BuyResult.crash, [Act.svcQuery, Act.balQuery]) := by
  unfold buy
  simp only [hs, hu]

/-- Rewriting user rows with an id-preserving function keeps the id
column duplicate-free. -/
theorem nodup_ids_map (f : UserRec → UserRec) (hf : ∀ u, (f u).id = u.id)
    (l : List UserRec) (h : (l.map UserRec.id).Nodup) :
    ((l.map f).map UserRec.id).Nodup := by
  rw [List.map_map]
  have hcomp : (UserRec.id ∘ f) = UserRec.id := funext hf
  rw [hcomp]
  exact h

theorem nodup_ids_creditUsers (uid : Nat) (a : Int) (l : List UserRec)
    (h : (l.map UserRec.id).Nodup) :
    ((creditUsers uid a l).map UserRec.id).Nodup := by
  unfold creditUsers
  refine nodup_ids_map _ ?_ l h
  intro u
  by_cases hh : u.id = uid
  · rw [if_pos hh]
  · rw [if_neg hh]

theorem nodup_ids_debitUsers (uid : Nat) (p : Int) (l : List UserRec)
    (h : (l.map UserRec.id).Nodup) :
    ((debitUsers uid p l).map UserRec.id).Nodup := by
  unfold debitUsers
  refine nodup_ids_map _ ?_ l h
  intro u
  by_cases hh : u.id = uid
  · rw [if_pos hh]
  · rw [if_neg hh]

/-- A credit of a non-negative amount keeps all balances
non-negative. -/
theorem balances_creditUsers (uid : Nat) (a : Int) (l : List UserRec)
    (hl : ∀ u ∈ l, 0 ≤ u.wallet_balance) (ha : 0 ≤ a) :
    ∀ u ∈ creditUsers uid a l, 0 ≤ u.wallet_balance := by
  intro u' hu'
  unfold creditUsers at hu'
  rcases List.mem_map.mp hu' with ⟨u, hul, rfl⟩
  by_cases h : u.id = uid
  · rw [if_pos h]
    show 0 ≤ u.wallet_balance + a
    have := hl u hul
    omega
  · rw [if_neg h]
    exact hl u hul

/-- A debit guarded by the handler's balance check keeps all balances
non-negative, given that user ids are a primary key. -/
theorem balances_debitUsers (uid : Nat) (p : Int) (l : List UserRec) (u₀ : UserRec)
    (hl : ∀ u ∈ l, 0 ≤ u.wallet_balance)
    (hnd : (l.map UserRec.id).Nodup)
    (hfind : l.find? (fun x => x.id = uid) = some u₀)
    (hge : ¬ u₀.wallet_balance < p) :
    ∀ u ∈ debitUsers uid p l, 0 ≤ u.wallet_balance := by
  intro u' hu'
  unfold debitUsers at hu'
  rcases List.mem_map.mp hu' with ⟨u, hul, rfl⟩
  by_cases h : u.id = uid
  · have hu0mem : u₀ ∈ l := List.mem_of_find?_eq_some hfind
    have hid0 : u₀.id = uid := by
      have := List.find?_some hfind
      simpa using this
    have heq : u = u₀ :=
      List.inj_on_of_nodup_map hnd hul hu0mem (by rw [h, hid0])
    rw [if_pos h]
    show 0 ≤ u.wallet_balance - p
    rw [heq]
    omega
  · rw [if_neg h]
    exact hl u hul

/-- Marking a top-up paid leaves every stored amount unchanged. -/
theorem amounts_markPaid (tid : Nat) (l : List Topup)
    (h : ∀ t ∈ l, 0 ≤ t.amount) :
    ∀ t ∈ markPaid tid l, 0 ≤ t.amount := by
  intro t' ht'
  unfold markPaid at ht'
  rcases List.mem_map.mp ht' with ⟨t, htl, rfl⟩
  by_cases hh : t.id = tid
  · rw [if_pos hh]
    exact h t htl
  · rw [if_neg hh]
    exact h t htl

/-- The callback preserves well-formedness. -/
theorem WF_topupCallback (ev : Event) (db : DB) (h : WF db) :
    WF (topupCallback ev db).1 := by
  obtain ⟨hnd, hbal, hamt⟩ := h
  by_cases hp : ev.status = "PAID"
  · cases hf : db.topups.find? (fun x => x.id = ev.ref) with
    | none =>
      rw [topupCallback_paid_not_found ev db hp hf]
      exact ⟨hnd, hbal, amounts_markPaid ev.ref db.topups hamt⟩
    | some t =>
      rw [topupCallback_paid_found ev db t hp hf]
      have hta : 0 ≤ t.amount := hamt t (List.mem_of_find?_eq_some hf)
      exact ⟨nodup_ids_creditUsers t.user_id t.amount db.users hnd,
             balances_creditUsers t.user_id t.amount db.users hbal hta,
             amounts_markPaid ev.ref db.topups hamt⟩
  · rw [topupCallback_not_paid ev db hp]
    exact ⟨hnd, hbal, hamt⟩

/-- The buy handler preserves well-formedness: its debit is guarded
by the balance check. -/
theorem WF_buy (uid sid : Nat) (prov : ProviderOutcome) (db : DB) (h : WF db) :
    WF (buy uid sid prov db).1 := by
  obtain ⟨hnd, hbal, hamt⟩ := h
  cases hs : db.services.find? (fun s => s.id = sid) with
  | none =>
    rw [buy_no_service db uid sid prov hs]
    exact ⟨hnd, hbal, hamt⟩
  | some svc =>
    cases hu : db.users.find? (fun x => x.id = uid) with
    | none =>
      rw [buy_no_user db uid sid prov svc hs hu]
      exact ⟨hnd, hbal, hamt⟩
    | some u =>
      by_cases hlt : u.wallet_balance < svc.price
      · rw [buy_insufficient db uid sid prov svc u hs hu hlt]
        exact ⟨hnd, hbal, hamt⟩
      · cases prov with
        | err =>
          rw [buy_provider_err db uid sid svc u hs hu hlt]
          exact ⟨hnd, hbal, hamt⟩
        | ok oid num =>
          rw [buy_success db uid sid oid num svc u hs hu hlt]
          exact ⟨nodup_ids_debitUsers uid svc.price db.users hnd,
                 balances_debitUsers uid svc.price db.users u hbal hnd hu hlt,
                 hamt⟩

theorem WF_runOp (op : Op) (db : DB) (h : WF db) : WF (runOp op db) := by
  cases op with
  | confirm ev => exact WF_topupCallback ev db h
  | purchase uid sid prov => exact WF_buy uid sid prov db h

theorem WF_runOps (ops : List Op) (db : DB) (h : WF db) : WF (runOps ops db) := by
  induction ops generalizing db with
  | nil => exact h
  | cons op rest ih => exact ih (runOp op db) (WF_runOp op db h)

/-- C4: starting from a well-formed database (ids form a primary key,
balances and stored top-up amounts non-negative), every sequence of
core operations — payment confirmations and purchases — keeps every
user's wallet balance non-negative: the guarded debit and the
non-negative credit never drive a balance below zero. -/
theorem c4_balance_never_negative (ops : List Op) (db : DB) (h : WF db) :
    ∀ u ∈ (runOps ops db).users, 0 ≤ u.wallet_balance :=
  (WF_runOps ops db h).2.1

/-- C4 witness: a confirmation followed by two purchase attempts
(one succeeds, the follow-up is refused) from a concrete state. -/
theorem c4_witness :
    ((runOps
        [Op.confirm paidEv,
         Op.purchase 1 1 (ProviderOutcome.ok "p1" (some "n")),
         Op.purchase 1 1 (ProviderOutcome.ok "p2" none)] coreDb).users.all
      (fun u => 0 ≤ u.wallet_balance)) = true := by
  have h := c4_balance_never_negative
    [Op.confirm paidEv,
     Op.purchase 1 1 (ProviderOutcome.ok "p1" (some "n")),
     Op.purchase 1 1 (ProviderOutcome.ok "p2" none)] coreDb (by decide)
  rw [List.all_eq_true]
  intro u hu
  simpa using h u hu

/-! ## C5 — ledger audit trail -/

theorem ledger_topupCallback (ev : Event) (db : DB) :
    (topupCallback ev db).1.ledger_entries = db.ledger_entries := by
  by_cases hp : ev.status = "PAID"
  · cases hf : db.topups.find? (fun x => x.id = ev.ref) with
    | none => rw [topupCallback_paid_not_found ev db hp hf]
    | some t => rw [topupCallback_paid_found ev db t hp hf]
  · rw [topupCallback_not_paid ev db hp]

theorem ledger_buy (uid sid : Nat) (prov : ProviderOutcome) (db : DB) :
    (buy uid sid prov db).1.ledger_entries = db.ledger_entries := by
  cases hs : db.services.find? (fun s => s.id = sid) with
  | none => rw [buy_no_service db uid sid prov hs]
  | some svc =>
    cases hu : db.users.find? (fun x => x.id = uid) with
    | none => rw [buy_no_user db uid sid prov svc hs hu]
    | some u =>
      by_cases hlt : u.wallet_balance < svc.price
      · rw [buy_insufficient db uid sid prov svc u hs hu hlt]
      · cases prov with
        | err => rw [buy_provider_err db uid sid svc u hs hu hlt]
        | ok oid num => rw [buy_success db uid sid oid num svc u hs hu hlt]

/-- C5 (amended): the schema defines no ledger table and no handler
appends an audit entry: across every sequence of core operations the
ledger relation is unchanged — wallet mutations append no
`LedgerEntry`, so balances are not mirrored by ledger deltas. -/
theorem c5_no_ledger_entry_ever_appended (ops : List Op) (db : DB) :
    (runOps ops db).ledger_entries = db.ledger_entries := by
  induction ops generalizing db with
  | nil => rfl
  | cons op rest ih =>
    calc (runOps (op :: rest) db).ledger_entries
        = (runOp op db).ledger_entries := ih (runOp op db)
      _ = db.ledger_entries := by
          cases op with
          | confirm ev => exact ledger_topupCallback ev db
          | purchase uid sid prov => exact ledger_buy uid sid prov db

/-- C5 (counterexample): a PAID confirmation mutates the balance
(0 → 20) yet appends no ledger entry, so afterwards the balance no
longer equals the sum of that user's ledger deltas. -/
theorem c5_counterexample :
    getBalance (topupCallback paidEv replayDb).1 1 ≠ getBalance replayDb 1 ∧
    (topupCallback paidEv replayDb).1.ledger_entries = replayDb.ledger_entries ∧
    getBalance (topupCallback paidEv replayDb).1 1 ≠
      some (ledgerSum (topupCallback paidEv replayDb).1 1) := by
  decide

/-! ## C6 — concurrent debit attempts -/

/-- C6 (counterexample): balance 10, two attempts at price 10,
interleaved check–check–debit–debit: both attempts complete (two
successes, no insufficient-balance failure) and the balance ends at
−10 — a lost update and a negative balance. -/
theorem c6_counterexample :
    runRace 1 10 [true, false, true, false]
        { users := [{ id := 1, wallet_balance := 10 }],
          ph1 := Phase.ready, ph2 := Phase.ready } =
      { users := [{ id := 1, wallet_balance := -10 }],
        ph1 := Phase.completed, ph2 := Phase.completed } := by
  decide

/-- C6 (amended): the buy handler's balance check and decrement are
two separate unserialized queries (the provider call sits between
them); under the interleaving where both checks run before either
decrement, any balance sufficient for one attempt but not both
(price ≤ b < 2·price) lets both attempts complete and leaves the
balance negative. -/
theorem c6_overlapping_checks_both_succeed
    (uid : Nat) (b price : Int) (h1 : price ≤ b) (h2 : b < 2 * price) :
    runRace uid price [true, false, true, false]
        { users := [{ id := uid, wallet_balance := b }],
          ph1 := Phase.ready, ph2 := Phase.ready } =
      { users := [{ id := uid, wallet_balance := b - price - price }],
        ph1 := Phase.completed, ph2 := Phase.completed } ∧
    b - price - price < 0 := by
  have hns : ¬ (b < price) := not_lt.mpr h1
  refine ⟨?_, by omega⟩
  simp [runRace, raceStep, debitUsers, hns]

/-- C6 amended-claim witness: balance 15, price 10. -/
theorem c6_witness :
    runRace 7 10 [true, false, true, false]
        { users := [{ id := 7, wallet_balance := 15 }],
          ph1 := Phase.ready, ph2 := Phase.ready } =
      { users := [{ id := 7, wallet_balance := 15 - 10 - 10 }],
        ph1 := Phase.completed, ph2 := Phase.completed } ∧
    (15 : Int) - 10 - 10 < 0 :=
  c6_overlapping_checks_both_succeed 7 15 10 (by decide) (by decide)

/-! ## C10 — orders are created waiting and never mutated -/

theorem orders_topupCallback (ev : Event) (db : DB) :
    (topupCallback ev db).1.orders = db.orders := by
  by_cases hp : ev.status = "PAID"
  · cases hf : db.topups.find? (fun x => x.id = ev.ref) with
    | none => rw [topupCallback_paid_not_found ev db hp hf]
    | some t => rw [topupCallback_paid_found ev db t hp hf]
  · rw [topupCallback_not_paid ev db hp]

theorem orders_buy (uid sid : Nat) (prov : ProviderOutcome) (db : DB) :
    ∃ new, (buy uid sid prov db).1.orders = db.orders ++ new ∧
      ∀ o ∈ new, o.status = "waiting" ∧ o.sms_code = none := by
  cases hs : db.services.find? (fun s => s.id = sid) with
  | none =>
    rw [buy_no_service db uid sid prov hs]
    exact ⟨[], by simp, by simp⟩
  | some svc =>
    cases hu : db.users.find? (fun x => x.id = uid) with
    | none =>
      rw [buy_no_user db uid sid prov svc hs hu]
      exact ⟨[], by simp, by simp⟩
    | some u =>
      by_cases hlt : u.wallet_balance < svc.price
      · rw [buy_insufficient db uid sid prov svc u hs hu hlt]
        exact ⟨[], by simp, by simp⟩
      · cases prov with
        | err =>
          rw [buy_provider_err db uid sid svc u hs hu hlt]
          exact ⟨[], by simp, by simp⟩
        | ok oid num =>
          rw [buy_success db uid sid oid num svc u hs hu hlt]
          refine ⟨[{ id := freshOrderId db.orders, user_id := uid, service_id := sid,
                     provider := svc.provider, provider_order_id := some oid,
                     virtual_number := num, sms_code := none, status := "waiting" }],
                  rfl, ?_⟩
          intro o ho
          have := List.mem_singleton.mp ho
          rw [this]
          exact ⟨rfl, rfl⟩

theorem orders_runOp (op : Op) (db : DB) :
    ∃ new, (runOp op db).orders = db.orders ++ new ∧
      ∀ o ∈ new, o.status = "waiting" ∧ o.sms_code = none := by
  cases op with
  | confirm ev =>
    refine ⟨[], ?_, by simp⟩
    rw [runOp, orders_topupCallback ev db]
    simp
  | purchase uid sid prov => exact orders_buy uid sid prov db

/-- C10: the orders table only ever grows: every core operation
leaves existing order rows byte-for-byte unchanged (status, SMS code
and virtual number included) and any row it adds is created with
status `waiting` and no SMS code; consequently every order in a
reachable state was either present initially or sits in `waiting` —
no operation moves an order to `received`, `expired`, `cancelled` or
`refunded`. -/
theorem c10_orders_created_waiting_never_mutated (ops : List Op) (db : DB) :
    ∃ new, (runOps ops db).orders = db.orders ++ new ∧
      (∀ o ∈ new, o.status = "waiting" ∧ o.sms_code = none) ∧
      (∀ o ∈ (runOps ops db).orders, o ∈ db.orders ∨ o.status = "waiting") := by
  induction ops generalizing db with
  | nil =>
    refine ⟨[], by simp [runOps], by simp, ?_⟩
    intro o ho
    exact Or.inl ho
  | cons op rest ih =>
    obtain ⟨n2, h2, hw2, _⟩ := ih (runOp op db)
    obtain ⟨n1, h1, hw1⟩ := orders_runOp op db
    have hall : (runOps (op :: rest) db).orders = db.orders ++ (n1 ++ n2) := by
      have hstep : (runOps (op :: rest) db).orders = (runOp op db).orders ++ n2 := h2
      rw [hstep, h1, List.append_assoc]
    refine ⟨n1 ++ n2, hall, ?_, ?_⟩
    · intro o ho
      rcases List.mem_append.mp ho with h | h
      · exact hw1 o h
      · exact hw2 o h
    · intro o ho
      rw [hall] at ho
      rcases List.mem_append.mp ho with h | h
      · exact Or.inl h
      · rcases List.mem_append.mp h with h' | h'
        · exact Or.inr (hw1 o h').1
        · exact Or.inr (hw2 o h').1

end VNR
